import Mathlib

/-
Shallow embedding of the Ingredients API service (src/main.py).

The service is a thin CRUD layer over a single `ingredients` table backed by
a pooled PostgreSQL connection.  We model:

  * the stored table as a list of rows with columns in the fixed positional
    order (id, name, price, unit);
  * connection acquisition (`get_db_connection`, main.py:78-87) as a function
    over an `AcqOutcome` describing whether the pool produced a connection or
    the acquisition attempt raised;
  * a connection as the database state it gives access to, together with
    injectable faults for `cursor.execute` and `conn.commit` (these stand for
    the arbitrary exceptions psycopg2 may raise at those two call sites);
  * each synchronous helper (`_fetch_ingredients_sync`, main.py:110-131;
    `_create_ingredient_sync`, main.py:133-153; `_update_ingredient_sync`,
    main.py:155-202) as a function producing the Python result-or-exception
    together with an effect trace: whether the transaction was committed or
    rolled back, the resulting stored table, and whether the connection was
    returned to the pool;
  * each FastAPI route handler (main.py:205-247) as the translation of the
    helper's outcome into an HTTP status / body.

Prices are floats in Python; no arithmetic is ever performed on them, so we
model them as rationals.
-/

namespace IngredientsAPI

/-- A stored row of the `ingredients` table.  The persisted schema fixes the
positional column order (column 0 = id, column 1 = name, column 2 = price,
column 3 = unit); field order here mirrors that. -/
structure Row where
  id : Int
  name : String
  price : Rat
  unit : String
deriving DecidableEq

/-- A database connection, as checked out of the pool: the stored table it
gives access to, the id the storage will assign to the next inserted row, and
injectable faults: `executeFault = some m` means the `cursor.execute` call of
the operation raises an exception with message `m`; `commitFault` likewise for
`conn.commit`. -/
structure Conn where
  db : List Row
  nextId : Int
  executeFault : Option String
  commitFault : Option String
deriving DecidableEq

/-- Outcome of one connection-acquisition attempt against the pool: either a
connection, or the exception raised during lazy pool initialization /
`getconn` (main.py:80-82). -/
inductive AcqOutcome where
  | ok (c : Conn)
  | failed (msg : String)
deriving DecidableEq

/-- The body of the `try` block of `get_db_connection` (main.py:79-84):
lazily initialize the pool and call `getconn`, either yielding a connection
or raising. -/
def acquireAttempt : AcqOutcome → Except String Conn
  | .ok c => .ok c
  | .failed m => .error m

/-- `get_db_connection` (main.py:78-87): wraps the acquisition attempt in
`try/except Exception`, converting every exception into the return value
`None` (here `none`).  It therefore never raises to its caller. -/
def get_db_connection (o : AcqOutcome) : Option Conn :=
  match acquireAttempt o with
  | .ok c => some c
  | .error _ => none

/-- Python exceptions that the synchronous helpers can raise:
`ConnectionError` (main.py:114/136/158), FastAPI `HTTPException`
(main.py:177/186/200), or any other exception propagating from psycopg2
(modelled by its message). -/
inductive Exc where
  | connectionError (msg : String)
  | httpException (status : Nat) (detail : String)
  | otherError (msg : String)
deriving DecidableEq

/-- Request body of POST /ingredients (pydantic model `Ingredient`,
main.py:95-98): all three fields required. -/
structure Ingredient where
  name : String
  price : Rat
  unit : String
deriving DecidableEq

/-- Request body of PUT /ingredients/:id (pydantic model `IngredientUpdate`,
main.py:100-103): all three fields optional, defaulting to `None`. -/
structure IngredientUpdate where
  name : Option String
  price : Option Rat
  unit : Option String
deriving DecidableEq

/-- Response model of GET /health (pydantic model `HealthCheck`,
main.py:105-107). -/
structure HealthCheck where
  status : String
  database : String
deriving DecidableEq

/-- One element of the listing response: built from a fetched row as
`\x7b"name": row[1], "price": row[2], "unit": row[3]\x7d` (main.py:123).
Column 0, the id, does not appear. -/
structure IngredientOut where
  name : String
  price : Rat
  unit : String
deriving DecidableEq

/-- Response body of GET /ingredients: a container keyed `ingredients`
(main.py:126). -/
structure FetchResponse where
  ingredients : List IngredientOut
deriving DecidableEq

/-- Response body of POST /ingredients and PUT /ingredients/:id: the record
with its storage-assigned identifier (main.py:147, 189-194). -/
structure IngredientRecord where
  id : Int
  name : String
  price : Rat
  unit : String
deriving DecidableEq

/-- Transaction-level effect of one operation on an acquired connection.
`finalDb` is the stored table visible after the operation: the new state if
the transaction was committed, the original state otherwise (an uncommitted
or rolled-back transaction persists nothing). -/
structure TxEffect where
  committed : Bool
  rolledBack : Bool
  finalDb : List Row
deriving DecidableEq

/-- Outcome of one synchronous helper: the Python return value or raised
exception, the transaction effect (`none` when no connection was acquired,
so no database work happened), and whether the connection was returned to
the pool via `release_connection` (main.py:89-92). -/
structure SyncOutcome (α : Type) where
  result : Except Exc α
  effect : Option TxEffect
  released : Bool

/-- The per-row mapping of the listing (main.py:123): positional columns 1,
2, 3 become `name`, `price`, `unit`; column 0 (the id) is dropped. -/
def listingEntry (r : Row) : IngredientOut :=
  { name := r.name, price := r.price, unit := r.unit }

/-- `_fetch_ingredients_sync` (main.py:110-131).  Acquires a connection
(raising `ConnectionError` if `get_db_connection` returned `None`), executes
`SELECT * FROM ingredients LIMIT 10;`, maps each row through `listingEntry`,
and returns the container; any exception is re-raised; the `finally` block
releases the connection on every path. -/
def _fetch_ingredients_sync (o : AcqOutcome) : SyncOutcome FetchResponse :=
  match get_db_connection o with
  | none =>
      { result := .error (.connectionError "Failed to connect to the database"),
        effect := none, released := false }
  | some conn =>
      match conn.executeFault with
      | some m =>
          { result := .error (.otherError m),
            effect := some { committed := false, rolledBack := false, finalDb := conn.db },
            released := true }
      | none =>
          { result := .ok { ingredients := (conn.db.take 10).map listingEntry },
            effect := some { committed := false, rolledBack := false, finalDb := conn.db },
            released := true }

/-- `_create_ingredient_sync` (main.py:133-153).  Acquires a connection
(raising `ConnectionError` on `None`), executes
`INSERT INTO ingredients (name, price, unit) VALUES (%s, %s, %s) RETURNING id;`
which assigns `nextId` and appends the row, commits, and returns the id plus
the input fields; on any exception in the body it rolls back and re-raises;
the `finally` block releases the connection on every path. -/
def _create_ingredient_sync (o : AcqOutcome) (ingredient : Ingredient) :
    SyncOutcome IngredientRecord :=
  match get_db_connection o with
  | none =>
      { result := .error (.connectionError "Failed to connect to the database"),
        effect := none, released := false }
  | some conn =>
      match conn.executeFault with
      | some m =>
          { result := .error (.otherError m),
            effect := some { committed := false, rolledBack := true, finalDb := conn.db },
            released := true }
      | none =>
          let newRow : Row :=
            { id := conn.nextId, name := ingredient.name,
              price := ingredient.price, unit := ingredient.unit }
          match conn.commitFault with
          | some m =>
              { result := .error (.otherError m),
                effect := some { committed := false, rolledBack := true, finalDb := conn.db },
                released := true }
          | none =>
              { result := .ok { id := conn.nextId, name := ingredient.name,
                                price := ingredient.price, unit := ingredient.unit },
                effect := some { committed := true, rolledBack := false,
                                 finalDb := conn.db ++ [newRow] },
                released := true }

/-- One entry of the dynamic `SET` clause of the partial update
(main.py:163-174): the clause fragment for one column together with the value
bound to its `%s` placeholder. -/
inductive SetField where
  | name (v : String)
  | price (v : Rat)
  | unit (v : String)
deriving DecidableEq

/-- The SQL text contributed by one `SET` entry (main.py:167/170/173).  The
value is bound as a parameter, so the text is a fixed `column = %s` fragment
independent of the value. -/
def SetField.clause : SetField → String
  | .name _ => "name = %s"
  | .price _ => "price = %s"
  | .unit _ => "unit = %s"

/-- Position of a column in the fixed build order name, price, unit. -/
def SetField.rank : SetField → Nat
  | .name _ => 0
  | .price _ => 1
  | .unit _ => 2

/-- The `update_fields` / `update_values` construction (main.py:163-174):
three `if ... is not None` checks, in the fixed order name, price, unit, each
appending its clause-plus-bound-value when the field is supplied. -/
def buildUpdateFields (u : IngredientUpdate) : List SetField :=
  (match u.name with | some v => [SetField.name v] | none => []) ++
  (match u.price with | some v => [SetField.price v] | none => []) ++
  (match u.unit with | some v => [SetField.unit v] | none => [])

/-- Effect of one `SET` entry on a row, per SQL UPDATE semantics. -/
def applySetField (f : SetField) (r : Row) : Row :=
  match f with
  | .name v => { r with name := v }
  | .price v => { r with price := v }
  | .unit v => { r with unit := v }

/-- Effect of the whole `SET` clause on a row. -/
def applySetFields (fs : List SetField) (r : Row) : Row :=
  fs.foldl (fun r f => applySetField f r) r

/-- The assembled update statement text (main.py:180): the clause fragments
joined by ", ", with the id bound to the trailing `%s`. -/
def update_query (fs : List SetField) : String :=
  "UPDATE ingredients SET " ++ String.intercalate ", " (fs.map SetField.clause)
    ++ " WHERE id = %s RETURNING id, name, price, unit;"

/-- `_update_ingredient_sync` (main.py:155-202).  Acquires a connection
(raising `ConnectionError` on `None`); builds the dynamic `SET` clause; an
empty clause raises `HTTPException 400` before any SQL executes; otherwise
executes `UPDATE ... WHERE id = %s RETURNING id, name, price, unit;`, which
updates every row whose id matches and returns the first such updated row
(`fetchone`); no returned row raises `HTTPException 404`; otherwise commits
and returns the returned row's four columns.  `except HTTPException: raise`
passes HTTP exceptions through untouched (no rollback); any other exception
triggers `conn.rollback()` and is re-raised as `HTTPException 500` with the
underlying message; the `finally` block releases the connection on every
path. -/
def _update_ingredient_sync (o : AcqOutcome) (ingredient_id : Int)
    (u : IngredientUpdate) : SyncOutcome IngredientRecord :=
  match get_db_connection o with
  | none =>
      { result := .error (.connectionError "Failed to connect to the database"),
        effect := none, released := false }
  | some conn =>
      let fs := buildUpdateFields u
      if fs = [] then
        { result := .error (.httpException 400 "No fields to update"),
          effect := some { committed := false, rolledBack := false, finalDb := conn.db },
          released := true }
      else
        match conn.executeFault with
        | some m =>
            { result := .error (.httpException 500 m),
              effect := some { committed := false, rolledBack := true, finalDb := conn.db },
              released := true }
        | none =>
            match (conn.db.find? (fun r => r.id == ingredient_id)).map (applySetFields fs) with
            | none =>
                { result := .error (.httpException 404 "Ingredient not found"),
                  effect := some { committed := false, rolledBack := false, finalDb := conn.db },
                  released := true }
            | some updated =>
                match conn.commitFault with
                | some m =>
                    { result := .error (.httpException 500 m),
                      effect := some { committed := false, rolledBack := true, finalDb := conn.db },
                      released := true }
                | none =>
                    { result := .ok { id := updated.id, name := updated.name,
                                      price := updated.price, unit := updated.unit },
                      effect := some { committed := true, rolledBack := false,
                                       finalDb := conn.db.map (fun r =>
                                         if r.id == ingredient_id then applySetFields fs r else r) },
                      released := true }

/-- An HTTP response as produced by a route handler: a 200 body or an
`HTTPException` status and detail. -/
inductive HttpResult (α : Type) where
  | ok (body : α)
  | err (status : Nat) (detail : String)
deriving DecidableEq

/-- Status code of an HTTP response (success responses are 200). -/
def HttpResult.statusCode {α : Type} : HttpResult α → Nat
  | .ok _ => 200
  | .err s _ => s

/-- GET /health (`health_check`, main.py:205-214).  Calls
`get_db_connection` (which never raises); if a connection came back it is
released and the healthy status is returned.  When `get_db_connection`
returns `None` the `if conn:` branch is skipped and the function body ends
without executing any `return`, so Python returns `None` — the
`except` branch is unreachable and no status value is produced. -/
def health_check (o : AcqOutcome) : Option HealthCheck :=
  match get_db_connection o with
  | some _ => some { status := "healthy", database := "connected" }
  | none => none

/-- GET /ingredients (`get_ingredients`, main.py:217-225): `ConnectionError`
becomes 503 with the error's message; any other exception becomes 500 with
the wrapped message. -/
def get_ingredients (o : AcqOutcome) : HttpResult FetchResponse :=
  match (_fetch_ingredients_sync o).result with
  | .ok r => .ok r
  | .error (.connectionError m) => .err 503 m
  | .error (.httpException _ d) => .err 500 ("Error fetching ingredients: " ++ d)
  | .error (.otherError m) => .err 500 ("Error fetching ingredients: " ++ m)

/-- POST /ingredients (`create_ingredient`, main.py:227-235): same
translation with the create wording. -/
def create_ingredient (o : AcqOutcome) (ingredient : Ingredient) :
    HttpResult IngredientRecord :=
  match (_create_ingredient_sync o ingredient).result with
  | .ok r => .ok r
  | .error (.connectionError m) => .err 503 m
  | .error (.httpException _ d) => .err 500 ("Error creating ingredient: " ++ d)
  | .error (.otherError m) => .err 500 ("Error creating ingredient: " ++ m)

/-- PUT /ingredients/:id (`update_ingredient`, main.py:237-247):
`HTTPException` passes through with its own status and detail;
`ConnectionError` becomes 503; any other exception becomes 500 with the
wrapped message. -/
def update_ingredient (o : AcqOutcome) (ingredient_id : Int)
    (u : IngredientUpdate) : HttpResult IngredientRecord :=
  match (_update_ingredient_sync o ingredient_id u).result with
  | .ok r => .ok r
  | .error (.httpException s d) => .err s d
  | .error (.connectionError m) => .err 503 m
  | .error (.otherError m) => .err 500 ("Error updating ingredient: " ++ m)

/-- C1: the spec says the health check always produces a status value, with
unhealthy/disconnected whenever acquisition fails.  Evaluating the code at an
acquisition failure: `get_db_connection` returns `None` (it never raises), so
`health_check` skips the `if conn:` branch and returns Python `None` — no
status value at all, and in particular not the unhealthy/disconnected one its
own `HealthCheck` response model and unreachable `except` branch call for. -/
theorem health_check_acquisition_failure_returns_none :
    health_check (AcqOutcome.failed "db unreachable") = none ∧
    health_check (AcqOutcome.failed "db unreachable") ≠
      some { status := "unhealthy", database := "disconnected" } ∧
    get_db_connection (AcqOutcome.failed "db unreachable") = none := by
  refine ⟨rfl, ?_, rfl⟩
  decide

/-- C2 counterexample: an update whose payload supplies none of the fields
does not yield 400 when the database is unreachable — the connection is
acquired before the empty-payload check, so the result is 503. -/
theorem empty_update_unreachable_db_gives_503 :
    update_ingredient (AcqOutcome.failed "connection refused") 1
        { name := none, price := none, unit := none } =
      HttpResult.err 503 "Failed to connect to the database" ∧
    (update_ingredient (AcqOutcome.failed "connection refused") 1
        { name := none, price := none, unit := none }).statusCode ≠ 400 := by
  exact ⟨rfl, by decide⟩

/-- C2 (amended): for every update request whose partial payload supplies
none of the fields name, price, unit, *when a connection is acquired* the
update operation fails with the 400 InvalidRequest condition before executing
any SQL statement — the conclusion holds for every connection state,
including one whose `execute` would fault, showing no database call is made —
and commits nothing, rolls back nothing, and leaves the stored rows
unchanged; when connection acquisition fails instead, the operation fails
with the 503 condition. -/
theorem empty_update_yields_400_when_connected (conn : Conn) (i : Int)
    (u : IngredientUpdate) (hn : u.name = none) (hp : u.price = none)
    (hu : u.unit = none) :
    (_update_ingredient_sync (AcqOutcome.ok conn) i u).result =
      .error (.httpException 400 "No fields to update") ∧
    (_update_ingredient_sync (AcqOutcome.ok conn) i u).effect =
      some { committed := false, rolledBack := false, finalDb := conn.db } ∧
    update_ingredient (AcqOutcome.ok conn) i u =
      HttpResult.err 400 "No fields to update" ∧
    ∀ m, update_ingredient (AcqOutcome.failed m) i u =
      HttpResult.err 503 "Failed to connect to the database" := by
  have hfs : buildUpdateFields u = [] := by
    simp [buildUpdateFields, hn, hp, hu]
  refine ⟨?_, ?_, ?_, ?_⟩
  · simp [_update_ingredient_sync, get_db_connection, acquireAttempt, hfs]
  · simp [_update_ingredient_sync, get_db_connection, acquireAttempt, hfs]
  · simp [update_ingredient, _update_ingredient_sync, get_db_connection, acquireAttempt, hfs]
  · intro m
    simp [update_ingredient, _update_ingredient_sync, get_db_connection, acquireAttempt]

/-- C2 witness: the amended theorem applied at a concrete connection whose
`execute` call would fault, with the empty payload. -/
theorem empty_update_yields_400_when_connected_witness :
    (_update_ingredient_sync
        (AcqOutcome.ok { db := [{ id := 1, name := "Flour", price := 2, unit := "kg" }],
                         nextId := 2, executeFault := some "boom", commitFault := none })
        1 { name := none, price := none, unit := none }).result =
      .error (.httpException 400 "No fields to update") :=
  (empty_update_yields_400_when_connected
    { db := [{ id := 1, name := "Flour", price := 2, unit := "kg" }],
      nextId := 2, executeFault := some "boom", commitFault := none }
    1 { name := none, price := none, unit := none } rfl rfl rfl).1

/-- C9: `get_db_connection` never raises — every exception from lazy pool
initialization or `getconn` is converted into the return value `none` — and
each of the three synchronous operations converts that `none` into a
`ConnectionError` with the fixed message "Failed to connect to the database"
before doing any database work (no transaction effect at all). -/
theorem acquisition_failure_becomes_connection_error (o : AcqOutcome)
    (ing : Ingredient) (i : Int) (u : IngredientUpdate)
    (h : get_db_connection o = none) :
    (∀ m, acquireAttempt o = Except.error m → get_db_connection o = none) ∧
    (_fetch_ingredients_sync o).result =
      .error (.connectionError "Failed to connect to the database") ∧
    (_fetch_ingredients_sync o).effect = none ∧
    (_create_ingredient_sync o ing).result =
      .error (.connectionError "Failed to connect to the database") ∧
    (_create_ingredient_sync o ing).effect = none ∧
    (_update_ingredient_sync o i u).result =
      .error (.connectionError "Failed to connect to the database") ∧
    (_update_ingredient_sync o i u).effect = none := by
  refine ⟨?_, ?_, ?_, ?_, ?_, ?_, ?_⟩ <;>
    simp [_fetch_ingredients_sync, _create_ingredient_sync, _update_ingredient_sync, h]

/-- C9 witness: the theorem applied at a concrete failed acquisition. -/
theorem acquisition_failure_becomes_connection_error_witness :
    (_fetch_ingredients_sync (AcqOutcome.failed "pool exhausted")).result =
      .error (.connectionError "Failed to connect to the database") :=
  (acquisition_failure_becomes_connection_error (AcqOutcome.failed "pool exhausted")
    { name := "Flour", price := 2, unit := "kg" } 1
    { name := none, price := none, unit := none } rfl).2.1

/-- C3: for every update request with a non-empty payload whose identifier
matches no row (the `UPDATE ... RETURNING` yields zero rows), the operation
fails with the 404 NotFound condition and performs no mutation of the stored
rows: the visible table afterwards is exactly the original one, with nothing
committed. -/
theorem update_missing_id_404_no_mutation (conn : Conn) (i : Int)
    (u : IngredientUpdate) (hne : buildUpdateFields u ≠ [])
    (hef : conn.executeFault = none)
    (hfind : conn.db.find? (fun r => r.id == i) = none) :
    (_update_ingredient_sync (AcqOutcome.ok conn) i u).result =
      .error (.httpException 404 "Ingredient not found") ∧
    (_update_ingredient_sync (AcqOutcome.ok conn) i u).effect =
      some { committed := false, rolledBack := false, finalDb := conn.db } ∧
    update_ingredient (AcqOutcome.ok conn) i u =
      HttpResult.err 404 "Ingredient not found" := by
  refine ⟨?_, ?_, ?_⟩ <;>
    simp [update_ingredient, _update_ingredient_sync, get_db_connection,
          acquireAttempt, hne, hef, hfind]

/-- C3 witness: the theorem applied at a one-row table and the absent
identifier 9999 with payload supplying only the price. -/
theorem update_missing_id_404_no_mutation_witness :
    (_update_ingredient_sync
        (AcqOutcome.ok { db := [{ id := 1, name := "Flour", price := 2, unit := "kg" }],
                         nextId := 2, executeFault := none, commitFault := none })
        9999 { name := none, price := some 5, unit := none }).result =
      .error (.httpException 404 "Ingredient not found") :=
  (update_missing_id_404_no_mutation
    { db := [{ id := 1, name := "Flour", price := 2, unit := "kg" }],
      nextId := 2, executeFault := none, commitFault := none }
    9999 { name := none, price := some 5, unit := none }
    (by decide) rfl (by decide)).1

/-- C4: for every table state (given a working connection), the list
operation returns a container keyed `ingredients` whose entries are exactly
the first at-most-10 rows mapped through `listingEntry` — name from column 1,
price from column 2, unit from column 3, the identifier column 0 not
surfaced — and the listing holds at most 10 entries. -/
theorem list_caps_at_ten_and_hides_id (conn : Conn)
    (hef : conn.executeFault = none) :
    get_ingredients (AcqOutcome.ok conn) =
      HttpResult.ok { ingredients := (conn.db.take 10).map listingEntry } ∧
    ((conn.db.take 10).map listingEntry).length ≤ 10 := by
  constructor
  · simp [get_ingredients, _fetch_ingredients_sync, get_db_connection,
          acquireAttempt, hef]
  · simp only [List.length_map, List.length_take]
    omega

/-- C4 witness: the theorem applied at a concrete 11-row table; the listing
is the first 10 rows with identifiers dropped. -/
theorem list_caps_at_ten_and_hides_id_witness :
    ((({ db := [⟨1, "a", 1, "u"⟩, ⟨2, "b", 2, "u"⟩, ⟨3, "c", 3, "u"⟩,
                ⟨4, "d", 4, "u"⟩, ⟨5, "e", 5, "u"⟩, ⟨6, "f", 6, "u"⟩,
                ⟨7, "g", 7, "u"⟩, ⟨8, "h", 8, "u"⟩, ⟨9, "i", 9, "u"⟩,
                ⟨10, "j", 10, "u"⟩, ⟨11, "k", 11, "u"⟩],
         nextId := 12, executeFault := none, commitFault := none } : Conn).db.take 10).map
        listingEntry).length ≤ 10 :=
  (list_caps_at_ten_and_hides_id
    { db := [⟨1, "a", 1, "u"⟩, ⟨2, "b", 2, "u"⟩, ⟨3, "c", 3, "u"⟩,
             ⟨4, "d", 4, "u"⟩, ⟨5, "e", 5, "u"⟩, ⟨6, "f", 6, "u"⟩,
             ⟨7, "g", 7, "u"⟩, ⟨8, "h", 8, "u"⟩, ⟨9, "i", 9, "u"⟩,
             ⟨10, "j", 10, "u"⟩, ⟨11, "k", 11, "u"⟩],
      nextId := 12, executeFault := none, commitFault := none } rfl).2

/-- C10: on the NotFound path of the update operation the raised 404 passes
through with neither commit nor rollback before the connection is released
back to the pool; and in every execution of the update operation on an
acquired connection, a rollback can only have been triggered by a
non-HTTPException exception, i.e. by an `execute` or `commit` fault. -/
theorem update_not_found_no_commit_no_rollback (conn : Conn) (i : Int)
    (u : IngredientUpdate) (hne : buildUpdateFields u ≠ [])
    (hef : conn.executeFault = none)
    (hfind : conn.db.find? (fun r => r.id == i) = none) :
    (_update_ingredient_sync (AcqOutcome.ok conn) i u).result =
      .error (.httpException 404 "Ingredient not found") ∧
    (_update_ingredient_sync (AcqOutcome.ok conn) i u).effect =
      some { committed := false, rolledBack := false, finalDb := conn.db } ∧
    (_update_ingredient_sync (AcqOutcome.ok conn) i u).released = true ∧
    ∀ c2 : Conn, ∀ e2 : TxEffect,
      (_update_ingredient_sync (AcqOutcome.ok c2) i u).effect = some e2 →
      e2.rolledBack = true →
      c2.executeFault.isSome ∨ c2.commitFault.isSome := by
  refine ⟨?_, ?_, ?_, ?_⟩
  · simp [_update_ingredient_sync, get_db_connection, acquireAttempt, hne, hef, hfind]
  · simp [_update_ingredient_sync, get_db_connection, acquireAttempt, hne, hef, hfind]
  · simp [_update_ingredient_sync, get_db_connection, acquireAttempt, hne, hef, hfind]
  · intro c2 e2 he hr
    cases hex : c2.executeFault with
    | some m => exact Or.inl (by simp [hex])
    | none =>
      cases hcf : c2.commitFault with
      | some m => exact Or.inr (by simp [hcf])
      | none =>
        exfalso
        cases hf2 : c2.db.find? (fun r => r.id == i) with
        | none =>
          simp [_update_ingredient_sync, get_db_connection, acquireAttempt,
                hne, hex, hcf, hf2] at he
          rw [← he] at hr
          simp at hr
        | some row =>
          simp [_update_ingredient_sync, get_db_connection, acquireAttempt,
                hne, hex, hcf, hf2] at he
          rw [← he] at hr
          simp at hr

/-- C10 witness: the theorem applied at a one-row table and the absent
identifier 9999 with payload supplying only the price. -/
theorem update_not_found_no_commit_no_rollback_witness :
    (_update_ingredient_sync
        (AcqOutcome.ok { db := [{ id := 1, name := "Flour", price := 2, unit := "kg" }],
                         nextId := 2, executeFault := none, commitFault := none })
        9999 { name := none, price := some 5, unit := none }).released = true :=
  (update_not_found_no_commit_no_rollback
    { db := [{ id := 1, name := "Flour", price := 2, unit := "kg" }],
      nextId := 2, executeFault := none, commitFault := none }
    9999 { name := none, price := some 5, unit := none }
    (by decide) rfl (by decide)).2.2.1

/-- C5: for every create request (all three fields supplied), on success the
operation commits and returns the storage-assigned identifier together with
exactly the three input field values, the committed table being the old one
with the new row appended; on any failure after connection acquisition
(execute fault, or commit fault) it rolls back, commits nothing, and
propagates the failure. -/
theorem create_commits_on_success_rolls_back_on_failure (conn : Conn)
    (ing : Ingredient) :
    (conn.executeFault = none → conn.commitFault = none →
      (_create_ingredient_sync (AcqOutcome.ok conn) ing).result =
        .ok { id := conn.nextId, name := ing.name, price := ing.price,
              unit := ing.unit } ∧
      (_create_ingredient_sync (AcqOutcome.ok conn) ing).effect =
        some { committed := true, rolledBack := false,
               finalDb := conn.db ++ [{ id := conn.nextId, name := ing.name,
                                        price := ing.price, unit := ing.unit }] }) ∧
    (∀ m, conn.executeFault = some m →
      (_create_ingredient_sync (AcqOutcome.ok conn) ing).result =
        .error (.otherError m) ∧
      (_create_ingredient_sync (AcqOutcome.ok conn) ing).effect =
        some { committed := false, rolledBack := true, finalDb := conn.db }) ∧
    (∀ m, conn.executeFault = none → conn.commitFault = some m →
      (_create_ingredient_sync (AcqOutcome.ok conn) ing).result =
        .error (.otherError m) ∧
      (_create_ingredient_sync (AcqOutcome.ok conn) ing).effect =
        some { committed := false, rolledBack := true, finalDb := conn.db }) := by
  refine ⟨?_, ?_, ?_⟩
  · intro hef hcf
    constructor <;>
      simp [_create_ingredient_sync, get_db_connection, acquireAttempt, hef, hcf]
  · intro m hef
    constructor <;>
      simp [_create_ingredient_sync, get_db_connection, acquireAttempt, hef]
  · intro m hef hcf
    constructor <;>
      simp [_create_ingredient_sync, get_db_connection, acquireAttempt, hef, hcf]

/-- C5 witness: the success branch of the theorem applied at a concrete
fault-free connection and the payload Flour/2/kg. -/
theorem create_commits_on_success_witness :
    (_create_ingredient_sync
        (AcqOutcome.ok { db := [], nextId := 1, executeFault := none,
                         commitFault := none })
        { name := "Flour", price := 2, unit := "kg" }).result =
      .ok { id := 1, name := "Flour", price := 2, unit := "kg" } :=
  ((create_commits_on_success_rolls_back_on_failure
    { db := [], nextId := 1, executeFault := none, commitFault := none }
    { name := "Flour", price := 2, unit := "kg" }).1 rfl rfl).1

/-- C6: the failure taxonomy of the three route handlers: connection
acquisition failure surfaces as 503 with the fixed ConnectionError message on
all three; an empty update payload as 400; an absent update target as 404;
and any other SQL or commit error as 500 carrying the underlying message
(wrapped with the operation's prefix for list and create, verbatim for
update): the execute-fault case for all three operations, and the
commit-fault case for the two committing operations, create and update. -/
theorem failure_status_taxonomy (conn : Conn) (m : String) (ing : Ingredient)
    (i : Int) (u : IngredientUpdate) :
    (get_ingredients (AcqOutcome.failed m) =
       HttpResult.err 503 "Failed to connect to the database") ∧
    (create_ingredient (AcqOutcome.failed m) ing =
       HttpResult.err 503 "Failed to connect to the database") ∧
    (update_ingredient (AcqOutcome.failed m) i u =
       HttpResult.err 503 "Failed to connect to the database") ∧
    (u.name = none → u.price = none → u.unit = none →
       update_ingredient (AcqOutcome.ok conn) i u =
         HttpResult.err 400 "No fields to update") ∧
    (buildUpdateFields u ≠ [] → conn.executeFault = none →
       conn.db.find? (fun r => r.id == i) = none →
       update_ingredient (AcqOutcome.ok conn) i u =
         HttpResult.err 404 "Ingredient not found") ∧
    (conn.executeFault = some m →
       get_ingredients (AcqOutcome.ok conn) =
         HttpResult.err 500 ("Error fetching ingredients: " ++ m) ∧
       create_ingredient (AcqOutcome.ok conn) ing =
         HttpResult.err 500 ("Error creating ingredient: " ++ m) ∧
       (buildUpdateFields u ≠ [] →
          update_ingredient (AcqOutcome.ok conn) i u = HttpResult.err 500 m)) ∧
    (∀ mc, conn.executeFault = none → conn.commitFault = some mc →
       create_ingredient (AcqOutcome.ok conn) ing =
         HttpResult.err 500 ("Error creating ingredient: " ++ mc) ∧
       (buildUpdateFields u ≠ [] →
          (∃ row, conn.db.find? (fun r => r.id == i) = some row) →
          update_ingredient (AcqOutcome.ok conn) i u = HttpResult.err 500 mc)) := by
  refine ⟨?_, ?_, ?_, ?_, ?_, ?_, ?_⟩
  · simp [get_ingredients, _fetch_ingredients_sync, get_db_connection, acquireAttempt]
  · simp [create_ingredient, _create_ingredient_sync, get_db_connection, acquireAttempt]
  · simp [update_ingredient, _update_ingredient_sync, get_db_connection, acquireAttempt]
  · intro hn hp hu
    have hfs : buildUpdateFields u = [] := by
      simp [buildUpdateFields, hn, hp, hu]
    simp [update_ingredient, _update_ingredient_sync, get_db_connection,
          acquireAttempt, hfs]
  · intro hne hef hfind
    simp [update_ingredient, _update_ingredient_sync, get_db_connection,
          acquireAttempt, hne, hef, hfind]
  · intro hef
    refine ⟨?_, ?_, ?_⟩
    · simp [get_ingredients, _fetch_ingredients_sync, get_db_connection,
            acquireAttempt, hef]
    · simp [create_ingredient, _create_ingredient_sync, get_db_connection,
            acquireAttempt, hef]
    · intro hne
      simp [update_ingredient, _update_ingredient_sync, get_db_connection,
            acquireAttempt, hne, hef]
  · intro mc hef hcf
    constructor
    · simp [create_ingredient, _create_ingredient_sync, get_db_connection,
            acquireAttempt, hef, hcf]
    · intro hne hrow
      obtain ⟨row, hrow⟩ := hrow
      simp [update_ingredient, _update_ingredient_sync, get_db_connection,
            acquireAttempt, hne, hef, hcf, hrow]

/-- C6 witness: the theorem applied at concrete inputs, exercising the 503
branch, the 400 branch (empty payload), the 404 branch (absent id 9999), the
500 branch for an execute fault, and the 500 branch for a commit fault on
both create and update. -/
theorem failure_status_taxonomy_witness :
    get_ingredients (AcqOutcome.failed "down") =
      HttpResult.err 503 "Failed to connect to the database" ∧
    update_ingredient
        (AcqOutcome.ok { db := [], nextId := 1, executeFault := none,
                         commitFault := none })
        1 { name := none, price := none, unit := none } =
      HttpResult.err 400 "No fields to update" ∧
    update_ingredient
        (AcqOutcome.ok { db := [{ id := 1, name := "Flour", price := 2, unit := "kg" }],
                         nextId := 2, executeFault := none, commitFault := none })
        9999 { name := none, price := some 5, unit := none } =
      HttpResult.err 404 "Ingredient not found" ∧
    get_ingredients
        (AcqOutcome.ok { db := [], nextId := 1, executeFault := some "boom",
                         commitFault := none }) =
      HttpResult.err 500 "Error fetching ingredients: boom" ∧
    create_ingredient
        (AcqOutcome.ok { db := [{ id := 1, name := "Flour", price := 2, unit := "kg" }],
                         nextId := 2, executeFault := none, commitFault := some "cboom" })
        { name := "Salt", price := 1, unit := "g" } =
      HttpResult.err 500 "Error creating ingredient: cboom" ∧
    update_ingredient
        (AcqOutcome.ok { db := [{ id := 1, name := "Flour", price := 2, unit := "kg" }],
                         nextId := 2, executeFault := none, commitFault := some "cboom" })
        1 { name := none, price := some 5, unit := none } =
      HttpResult.err 500 "cboom" :=
  ⟨(failure_status_taxonomy
      { db := [], nextId := 1, executeFault := none, commitFault := none }
      "down" { name := "Flour", price := 2, unit := "kg" } 1
      { name := none, price := none, unit := none }).1,
   (failure_status_taxonomy
      { db := [], nextId := 1, executeFault := none, commitFault := none }
      "down" { name := "Flour", price := 2, unit := "kg" } 1
      { name := none, price := none, unit := none }).2.2.2.1 rfl rfl rfl,
   (failure_status_taxonomy
      { db := [{ id := 1, name := "Flour", price := 2, unit := "kg" }],
        nextId := 2, executeFault := none, commitFault := none }
      "down" { name := "Flour", price := 2, unit := "kg" } 9999
      { name := none, price := some 5, unit := none }).2.2.2.2.1
     (by decide) rfl (by decide),
   ((failure_status_taxonomy
      { db := [], nextId := 1, executeFault := some "boom", commitFault := none }
      "boom" { name := "Flour", price := 2, unit := "kg" } 1
      { name := none, price := some 5, unit := none }).2.2.2.2.2.1 rfl).1,
   ((failure_status_taxonomy
      { db := [{ id := 1, name := "Flour", price := 2, unit := "kg" }],
        nextId := 2, executeFault := none, commitFault := some "cboom" }
      "down" { name := "Salt", price := 1, unit := "g" } 1
      { name := none, price := some 5, unit := none }).2.2.2.2.2.2 "cboom"
     rfl rfl).1,
   ((failure_status_taxonomy
      { db := [{ id := 1, name := "Flour", price := 2, unit := "kg" }],
        nextId := 2, executeFault := none, commitFault := some "cboom" }
      "down" { name := "Salt", price := 1, unit := "g" } 1
      { name := none, price := some 5, unit := none }).2.2.2.2.2.2 "cboom"
     rfl rfl).2 (by decide)
     ⟨{ id := 1, name := "Flour", price := 2, unit := "kg" }, by decide⟩⟩

/-- C7: in every execution of the list, create, or update operation in which
a connection was acquired, the connection is returned to the pool by the
guaranteed-execution (`finally`) block on every path: success, SQL error,
commit error, and domain failure (empty payload, absent target) alike — for
every connection state, fault injection, and payload. -/
theorem connection_always_released (conn : Conn) (ing : Ingredient) (i : Int)
    (u : IngredientUpdate) :
    (_fetch_ingredients_sync (AcqOutcome.ok conn)).released = true ∧
    (_create_ingredient_sync (AcqOutcome.ok conn) ing).released = true ∧
    (_update_ingredient_sync (AcqOutcome.ok conn) i u).released = true := by
  refine ⟨?_, ?_, ?_⟩ <;>
    simp only [_fetch_ingredients_sync, _create_ingredient_sync,
               _update_ingredient_sync, get_db_connection, acquireAttempt] <;>
    (repeat' split) <;> rfl

/-- C8: for every update request with a non-empty partial payload, the
dynamic SET clause contains exactly the supplied fields — membership in the
built clause list coincides with the field being supplied — in the fixed
order name, price, unit (ranks strictly increasing along the list); applying
the clause to the targeted row sets exactly the supplied fields and leaves
unsupplied fields unchanged; and the assembled SQL text depends only on which
fields are supplied, never on their values (they are bound as parameters). -/
theorem set_clause_exactly_supplied_fields (u : IngredientUpdate) (r : Row)
    (hne : buildUpdateFields u ≠ []) :
    (∀ v, SetField.name v ∈ buildUpdateFields u ↔ u.name = some v) ∧
    (∀ v, SetField.price v ∈ buildUpdateFields u ↔ u.price = some v) ∧
    (∀ v, SetField.unit v ∈ buildUpdateFields u ↔ u.unit = some v) ∧
    (buildUpdateFields u).Pairwise (fun a b => a.rank < b.rank) ∧
    applySetFields (buildUpdateFields u) r =
      { id := r.id, name := u.name.getD r.name, price := u.price.getD r.price,
        unit := u.unit.getD r.unit } ∧
    (∀ u2 : IngredientUpdate, u2.name.isSome = u.name.isSome →
       u2.price.isSome = u.price.isSome → u2.unit.isSome = u.unit.isSome →
       update_query (buildUpdateFields u2) = update_query (buildUpdateFields u)) := by
  obtain ⟨n, p, un⟩ := u
  refine ⟨?_, ?_, ?_, ?_, ?_, ?_⟩
  · intro v
    cases n <;> cases p <;> cases un <;> simp [buildUpdateFields, eq_comm]
  · intro v
    cases n <;> cases p <;> cases un <;> simp [buildUpdateFields, eq_comm]
  · intro v
    cases n <;> cases p <;> cases un <;> simp [buildUpdateFields, eq_comm]
  · cases n <;> cases p <;> cases un <;>
      simp [buildUpdateFields, SetField.rank, List.pairwise_cons]
  · cases n <;> cases p <;> cases un <;> rfl
  · intro u2 h1 h2 h3
    obtain ⟨n2, p2, un2⟩ := u2
    cases n <;> cases p <;> cases un <;> cases n2 <;> cases p2 <;> cases un2 <;>
      simp_all [buildUpdateFields, update_query, SetField.clause]

/-- C8 witness: the theorem applied at the payload supplying name and unit
only, on the row (1, Flour, 2, kg): name and unit are set, price is left
unchanged. -/
theorem set_clause_exactly_supplied_fields_witness :
    applySetFields
        (buildUpdateFields { name := some "Sugar", price := none, unit := some "g" })
        { id := 1, name := "Flour", price := 2, unit := "kg" } =
      { id := 1, name := "Sugar", price := 2, unit := "g" } :=
  (set_clause_exactly_supplied_fields
    { name := some "Sugar", price := none, unit := some "g" }
    { id := 1, name := "Flour", price := 2, unit := "kg" }
    (by decide)).2.2.2.2.1

end IngredientsAPI
